import Mathlib

/-!
Verification of the calendar container of react-native-big-calendar.

The embedding covers `src/components/CalendarContainer.tsx` (the container's
state machine: date-range selection by mode, event partitioning, swipe/pan
navigation, animated transition plumbing, and the `onChangeDate` effect) and
`CalendarHeader` (date-header presses and the all-day event cell).

Dates are modelled at day granularity as an epoch-day integer; a date-time is
an epoch day together with minutes past midnight.  The helpers of `src/utils`
(`modeToNum`, `isAllDayEvent`, `getDatesIn*`) are not part of the provided
sources, so they are modelled from the specification where marked.
-/

namespace BigCalendar

/-- Horizontal swipe/pan direction (`HorizontalDirection` in `src/interfaces`). -/
inductive HorizontalDirection where
  | LEFT
  | RIGHT
  deriving DecidableEq, Repr

/-- A date-time at minute precision: epoch day (days since 1970-01-01) plus
minutes past midnight.  This models a `dayjs` value at the precision the
container inspects. -/
structure Dt where
  day : Int
  minute : Nat
  deriving DecidableEq, Repr

/-- A calendar event (`ICalendarEventBase`): a start date-time, an end
date-time (`end` in the source; `endDate` here since `end` is reserved) and a
title. -/
structure CalEvent where
  start : Dt
  endDate : Dt
  title : String
  deriving DecidableEq, Repr

/-- An animation side effect requested by the container: `movePrevBody` or
`moveNextBody` in `CalendarContainer.tsx`. -/
inductive AnimAction where
  | movePrev
  | moveNext
  deriving DecidableEq, Repr

/-- The container state the navigation handlers touch: the `targetDate` React
state (at day granularity) and the trace of animation sequences started. -/
structure CalState where
  targetDate : Int
  anims : List AnimAction
  deriving DecidableEq, Repr

/-- Proleptic-Gregorian leap-year test, as used by the date library. -/
def isLeapYear (y : Int) : Bool :=
  (y % 4 == 0 && y % 100 != 0) || y % 400 == 0

/-- Number of days in month `m` of year `y` (Gregorian calendar, as exposed by
the date library's `daysInMonth`). -/
def daysInMonth (y m : Int) : Nat :=
  if m == 2 then (if isLeapYear y then 29 else 28)
  else if m == 4 || m == 6 || m == 9 || m == 11 then 30
  else 31

/-- Convert an epoch day to a civil `(year, month, dayOfMonth)` triple
(standard days-to-civil algorithm, the semantics of the date library). -/
def civilFromDays (z0 : Int) : Int × Int × Int :=
  let z := z0 + 719468
  let era := Int.fdiv z 146097
  let doe := z - era * 146097
  let yoe := Int.fdiv (doe - Int.fdiv doe 1460 + Int.fdiv doe 36524 - Int.fdiv doe 146096) 365
  let y := yoe + era * 400
  let doy := doe - (365 * yoe + Int.fdiv yoe 4 - Int.fdiv yoe 100)
  let mp := Int.fdiv (5 * doy + 2) 153
  let d := doy - Int.fdiv (153 * mp + 2) 5 + 1
  let m := mp + (if mp < 10 then 3 else -9)
  (y + (if m ≤ 2 then 1 else 0), m, d)

/-- Number of days in the month containing epoch day `t`. -/
def daysInMonthOf (t : Int) : Nat :=
  let c := civilFromDays t
  daysInMonth c.1 c.2.1

/-- Day of week of epoch day `t` (0 = Sunday, like `dayjs().day()`;
1970-01-01 was a Thursday). -/
def dayOfWeek (t : Int) : Int :=
  Int.emod (t + 4) 7

/-- Modelled from the spec: `modeToNum` of `src/utils` is not in the provided
sources.  The spec says a swipe/pan "advances or retreats the visible date
range by one period", and the modes are "day, 3-day, week, month, custom
range"; so one period is 1 day for `day`, 3 days for `3days`, 7 days for
`week` and `custom`, and the length of the target date's month for `month`
(the only mode whose period length depends on the date). -/
def modeToNum (mode : String) (current : Int) : Int :=
  if mode == "day" then 1
  else if mode == "3days" then 3
  else if mode == "week" then 7
  else if mode == "custom" then 7
  else if mode == "month" then (daysInMonthOf current : Int)
  else 1

/-- Modelled from the spec: `isAllDayEvent` of `src/utils` is not in the
provided sources.  The spec defines an all-day event as "an event spanning one
or more full days", so the event starts and ends on a day boundary (zero
minutes past midnight on both ends). -/
def isAllDayEvent (start endDate : Dt) : Bool :=
  start.minute == 0 && endDate.minute == 0

/-- `onSwipeHorizontalCallback` of `CalendarContainer.tsx`: when swipe is
disabled it returns without touching state; otherwise it moves `targetDate`
forward by `modeToNum(mode, targetDate)` days when the direction is LEFT in
LTR (or RIGHT in RTL), and by `modeToNum(mode, targetDate) * -1` days
otherwise. -/
def onSwipeHorizontalCallback (swipeEnabled isRTL : Bool) (mode : String)
    (direction : HorizontalDirection) (s : CalState) : CalState :=
  if !swipeEnabled then s
  else if (direction == .LEFT && !isRTL) || (direction == .RIGHT && isRTL) then
    { s with targetDate := s.targetDate + modeToNum mode s.targetDate }
  else
    { s with targetDate := s.targetDate + modeToNum mode s.targetDate * (-1) }

/-- `movePrevBody`: starts the previous-period animation sequence (modelled as
recording the action; it does not touch `targetDate`). -/
def movePrevBody (s : CalState) : CalState :=
  { s with anims := s.anims ++ [AnimAction.movePrev] }

/-- `moveNextBody`: starts the next-period animation sequence. -/
def moveNextBody (s : CalState) : CalState :=
  { s with anims := s.anims ++ [AnimAction.moveNext] }

/-- `onSwipeHorizontal` of `CalendarContainer.tsx`: with `animatePan` it first
starts the matching animation and then runs the callback; without it, it runs
the callback alone. -/
def onSwipeHorizontal (animatePan swipeEnabled isRTL : Bool) (mode : String)
    (direction : HorizontalDirection) (s : CalState) : CalState :=
  if animatePan then
    if (direction == .LEFT && !isRTL) || (direction == .RIGHT && isRTL) then
      onSwipeHorizontalCallback swipeEnabled isRTL mode direction (moveNextBody s)
    else
      onSwipeHorizontalCallback swipeEnabled isRTL mode direction (movePrevBody s)
  else
    onSwipeHorizontalCallback swipeEnabled isRTL mode direction s

/-- `onPanLeft` of `CalendarContainer.tsx`. -/
def onPanLeft (animatePan swipeEnabled isRTL : Bool) (mode : String)
    (direction : HorizontalDirection) (s : CalState) : CalState :=
  if animatePan then
    onSwipeHorizontalCallback swipeEnabled isRTL mode direction (movePrevBody s)
  else
    onSwipeHorizontalCallback swipeEnabled isRTL mode direction s

/-- `onPanRight` of `CalendarContainer.tsx`. -/
def onPanRight (animatePan swipeEnabled isRTL : Bool) (mode : String)
    (direction : HorizontalDirection) (s : CalState) : CalState :=
  if animatePan then
    onSwipeHorizontalCallback swipeEnabled isRTL mode direction (moveNextBody s)
  else
    onSwipeHorizontalCallback swipeEnabled isRTL mode direction s

/-- `allDayEvents` of `CalendarContainer.tsx`:
`events.filter((event) => isAllDayEvent(event.start, event.end))`. -/
def allDayEvents (events : List CalEvent) : List CalEvent :=
  events.filter (fun e => isAllDayEvent e.start e.endDate)

/-- `daytimeEvents` of `CalendarContainer.tsx`:
`events.filter((event) => !isAllDayEvent(event.start, event.end))`. -/
def daytimeEvents (events : List CalEvent) : List CalEvent :=
  events.filter (fun e => !isAllDayEvent e.start e.endDate)

/-- The event list handed to the body component by `CalendarContainer.tsx`:
in month mode `CalendarBodyForMonthView` receives
`[...daytimeEvents, ...allDayEvents]`; in every other mode `CalendarBody`
receives `daytimeEvents` only. -/
def bodyEvents (mode : String) (events : List CalEvent) : List CalEvent :=
  if mode == "month" then daytimeEvents events ++ allDayEvents events
  else daytimeEvents events

/-- The all-day event list handed to the header by `CalendarContainer.tsx`:
the non-month header receives `allDayEvents`; the month-view header props
carry no event list at all. -/
def headerAllDayEvents (mode : String) (events : List CalEvent) :
    Option (List CalEvent) :=
  if mode == "month" then none else some (allDayEvents events)

/-- `dayjs(date).isBetween(start, end, 'day', '[]')` as used by
`_CalendarHeader`: inclusive on both ends, at day granularity, accepting the
bounds in either order (the semantics of the dayjs `isBetween` plugin). -/
def isBetweenDayIncl (x a b : Dt) : Bool :=
  (decide (a.day ≤ x.day) && decide (x.day ≤ b.day)) ||
    (decide (b.day ≤ x.day) && decide (x.day ≤ a.day))

/-- The events `_CalendarHeader` renders inside a given day's all-day cell:
when `showAllDayEventCell` is set, the passed `allDayEvents` whose span
contains the day; otherwise the cell is not rendered at all. -/
def renderedAllDayCell (showAllDayEventCell : Bool) (date : Dt)
    (allDay : List CalEvent) : List CalEvent :=
  if showAllDayEventCell then
    allDay.filter (fun e => isBetweenDayIncl date e.start e.endDate)
  else []

/-- `_onPressHeader` of `_CalendarHeader`: calls `onPressDateHeader(date)`
when the callback is provided, and does nothing otherwise.  The result records
the invocation (`some` of the callback's value) or its absence (`none`). -/
def onPressHeader {α : Type} (onPressDateHeader : Option (Dt → α))
    (date : Dt) : Option α :=
  match onPressDateHeader with
  | some cb => some (cb date)
  | none => none

/-- The `disabled` prop of a header date cell:
`onPressDateHeader === undefined`. -/
def dateHeaderDisabled {α : Type} (onPressDateHeader : Option (Dt → α)) : Bool :=
  onPressDateHeader.isNone

/-- Pressing the `i`-th date cell of the header: the cell's `onPress` passes
that cell's date (`date.toDate()`) to `_onPressHeader`. -/
def pressHeaderCell {α : Type} (onPressDateHeader : Option (Dt → α))
    (dateRange : List Dt) (i : Nat) : Option α :=
  match dateRange[i]? with
  | some d => onPressHeader onPressDateHeader d
  | none => none

/-- Modelled from the spec: `getDatesInNextOneDay` of `src/utils` is not in
the provided sources.  Day mode shows a single day: the target date. -/
def getDatesInNextOneDay (target : Int) : List Int :=
  [target]

/-- Modelled from the spec: `getDatesInNextThreeDays` of `src/utils` is not
in the provided sources.  3-day mode shows the target date and the next two
days. -/
def getDatesInNextThreeDays (target : Int) : List Int :=
  [target, target + 1, target + 2]

/-- Modelled from the spec: `getDatesInWeek` of `src/utils` is not in the
provided sources.  Week mode shows the seven days of the week containing the
target date, beginning on `weekStartsOn` (0 = Sunday). -/
def getDatesInWeek (target weekStartsOn : Int) : List Int :=
  let offset := Int.emod (dayOfWeek target - weekStartsOn) 7
  (List.range 7).map (fun i => target - offset + i)

/-- Modelled from the spec: `getDatesInMonth` of `src/utils` is not in the
provided sources.  Month mode shows every day of the month containing the
target date. -/
def getDatesInMonth (target : Int) : List Int :=
  let c := civilFromDays target
  let first := target - (c.2.2 - 1)
  (List.range (daysInMonth c.1 c.2.1)).map (fun i => first + (i : Int))

/-- Modelled from the spec: `getDatesInNextCustomDays` of `src/utils` is not
in the provided sources.  Custom mode shows the days of the target date's
week from `weekStartsOn` through `weekEndsOn` inclusive. -/
def getDatesInNextCustomDays (target weekStartsOn weekEndsOn : Int) : List Int :=
  let offset := Int.emod (dayOfWeek target - weekStartsOn) 7
  (List.range (weekEndsOn + 1 - weekStartsOn).toNat).map
    (fun i => target - offset + i)

/-- The `dateRange` memo of `CalendarContainer.tsx`: dispatches on the mode
string, returning a range for the five supported modes and throwing for any
other value (modelled as `Except.error` with the thrown message). -/
def dateRange (mode : String) (targetDate weekStartsOn weekEndsOn : Int) :
    Except String (List Int) :=
  if mode == "month" then .ok (getDatesInMonth targetDate)
  else if mode == "week" then .ok (getDatesInWeek targetDate weekStartsOn)
  else if mode == "3days" then .ok (getDatesInNextThreeDays targetDate)
  else if mode == "day" then .ok (getDatesInNextOneDay targetDate)
  else if mode == "custom" then
    .ok (getDatesInNextCustomDays targetDate weekStartsOn weekEndsOn)
  else
    .error ("[react-native-big-calendar] The mode which you specified " ++
      mode ++ " is not supported.")

/-- Whether an `Except` computation produced a value (did not throw). -/
def isOkB {ε α : Type} : Except ε α → Bool
  | .ok _ => true
  | .error _ => false

/-- The argument the `onChangeDate` effect of `CalendarContainer.tsx` builds:
`[dateRange[0].toDate(), dateRange.slice(-1)[0].toDate()]`, i.e. the first and
last dates of the computed range (`none` when the range has no first or last
element). -/
def onChangeDatePayload (range : List Int) : Option (Int × Int) :=
  match range.head?, range.getLast? with
  | some a, some b => some (a, b)
  | _, _ => none

/-- The `onChangeDate` effect: when the callback is provided it is invoked
with the range's bounds; otherwise nothing happens. -/
def onChangeDateEffect (provided : Bool) (range : List Int) :
    Option (Int × Int) :=
  if provided then onChangeDatePayload range else none

/-- C1: with swipe enabled, a navigation moves the target date by exactly one
period: plus `modeToNum(mode, targetDate)` days for direction LEFT when not
RTL or RIGHT when RTL, and minus `modeToNum(mode, targetDate)` days for the
opposite direction. -/
theorem swipe_shifts_one_period (swipeEnabled isRTL : Bool) (mode : String)
    (direction : HorizontalDirection) (s : CalState)
    (hse : swipeEnabled = true) :
    ((direction = .LEFT ∧ isRTL = false) ∨ (direction = .RIGHT ∧ isRTL = true) →
      (onSwipeHorizontalCallback swipeEnabled isRTL mode direction s).targetDate =
        s.targetDate + modeToNum mode s.targetDate) ∧
    ((direction = .RIGHT ∧ isRTL = false) ∨ (direction = .LEFT ∧ isRTL = true) →
      (onSwipeHorizontalCallback swipeEnabled isRTL mode direction s).targetDate =
        s.targetDate - modeToNum mode s.targetDate) := by
  subst hse
  constructor
  · rintro (⟨hd, hr⟩ | ⟨hd, hr⟩) <;> subst hd <;> subst hr <;>
      simp [onSwipeHorizontalCallback]
  · rintro (⟨hd, hr⟩ | ⟨hd, hr⟩) <;> subst hd <;> subst hr <;>
      simp [onSwipeHorizontalCallback] <;> ring

/-- Witness for C1 at a concrete input: in week mode at epoch day 100 (LTR),
a LEFT swipe lands on day 107 and a RIGHT swipe on day 93. -/
theorem swipe_shifts_one_period_witness :
    (onSwipeHorizontalCallback true false "week" .LEFT ⟨100, []⟩).targetDate =
      (100 : Int) + modeToNum "week" 100 ∧
    (onSwipeHorizontalCallback true false "week" .RIGHT ⟨100, []⟩).targetDate =
      (100 : Int) - modeToNum "week" 100 :=
  ⟨(swipe_shifts_one_period true false "week" .LEFT ⟨100, []⟩ rfl).1
      (Or.inl ⟨rfl, rfl⟩),
   (swipe_shifts_one_period true false "week" .RIGHT ⟨100, []⟩ rfl).2
      (Or.inl ⟨rfl, rfl⟩)⟩

/-- C5 counterexample: in month mode (swipe enabled, LTR) starting at epoch
day 18642 (2021-01-15), a forward navigation followed by a backward one lands
on day 18645 (2021-01-18), not the original date: the month lengths differ. -/
theorem swipe_roundtrip_month_fails :
    (onSwipeHorizontalCallback true false "month" .RIGHT
      (onSwipeHorizontalCallback true false "month" .LEFT ⟨18642, []⟩)).targetDate ≠
      18642 := by
  decide

/-- C5 (amended): for the modes whose period length does not depend on the
date (day, 3days, week, custom), navigating one period in one direction and
then one period in the other direction returns the target date to its
original value; for month mode this can fail because the period length is the
length of the current target month. -/
theorem swipe_roundtrip_fixed_modes (mode : String) (isRTL : Bool)
    (d1 d2 : HorizontalDirection) (s : CalState)
    (hmode : mode = "day" ∨ mode = "3days" ∨ mode = "week" ∨ mode = "custom")
    (hdir : d1 ≠ d2) :
    (onSwipeHorizontalCallback true isRTL mode d2
      (onSwipeHorizontalCallback true isRTL mode d1 s)).targetDate =
      s.targetDate := by
  cases d1 <;> cases d2 <;> try exact absurd rfl hdir
  all_goals
    rcases hmode with h | h | h | h <;> subst h <;> cases isRTL <;>
      simp [onSwipeHorizontalCallback, modeToNum]

/-- Witness for C5 (amended) at a concrete input: in week mode at epoch day
100 (LTR), LEFT then RIGHT returns to day 100. -/
theorem swipe_roundtrip_fixed_modes_witness :
    (onSwipeHorizontalCallback true false "week" .RIGHT
      (onSwipeHorizontalCallback true false "week" .LEFT ⟨100, []⟩)).targetDate =
      (100 : Int) :=
  swipe_roundtrip_fixed_modes "week" false .LEFT .RIGHT ⟨100, []⟩
    (Or.inr (Or.inr (Or.inl rfl))) (by decide)

/-- C6: the animated and non-animated paths agree on the date state: for every
direction and swipe-enabled flag, `onSwipeHorizontal`, `onPanLeft` and
`onPanRight` produce the same target date whether `animatePan` is true or
false. -/
theorem animatePan_preserves_date_update (swipeEnabled isRTL : Bool)
    (mode : String) (direction : HorizontalDirection) (s : CalState) :
    (onSwipeHorizontal true swipeEnabled isRTL mode direction s).targetDate =
      (onSwipeHorizontal false swipeEnabled isRTL mode direction s).targetDate ∧
    (onPanLeft true swipeEnabled isRTL mode direction s).targetDate =
      (onPanLeft false swipeEnabled isRTL mode direction s).targetDate ∧
    (onPanRight true swipeEnabled isRTL mode direction s).targetDate =
      (onPanRight false swipeEnabled isRTL mode direction s).targetDate := by
  cases swipeEnabled <;> cases direction <;> cases isRTL <;>
    simp [onSwipeHorizontal, onPanLeft, onPanRight, onSwipeHorizontalCallback,
      movePrevBody, moveNextBody]

/-- C9: when `swipeEnabled` is false, `onSwipeHorizontalCallback` returns the
state unchanged, and every pan/swipe handler leaves the target date unchanged,
for both directions, every mode and either `animatePan` value. -/
theorem swipe_disabled_frame (swipeEnabled isRTL animatePan : Bool)
    (mode : String) (direction : HorizontalDirection) (s : CalState)
    (h : swipeEnabled = false) :
    onSwipeHorizontalCallback swipeEnabled isRTL mode direction s = s ∧
    (onPanLeft animatePan swipeEnabled isRTL mode direction s).targetDate =
      s.targetDate ∧
    (onPanRight animatePan swipeEnabled isRTL mode direction s).targetDate =
      s.targetDate ∧
    (onSwipeHorizontal animatePan swipeEnabled isRTL mode direction s).targetDate =
      s.targetDate := by
  subst h
  cases animatePan <;> cases direction <;> cases isRTL <;>
    simp [onSwipeHorizontal, onPanLeft, onPanRight, onSwipeHorizontalCallback,
      movePrevBody, moveNextBody]

/-- Witness for C9 at a concrete input: with swipe disabled in week mode at
epoch day 5, the callback is the identity and the handlers keep day 5. -/
theorem swipe_disabled_frame_witness :
    onSwipeHorizontalCallback false false "week" .LEFT ⟨5, []⟩ = ⟨5, []⟩ ∧
    (onPanLeft true false false "week" .LEFT ⟨5, []⟩).targetDate = 5 ∧
    (onPanRight true false false "week" .LEFT ⟨5, []⟩).targetDate = 5 ∧
    (onSwipeHorizontal true false false "week" .LEFT ⟨5, []⟩).targetDate = 5 :=
  swipe_disabled_frame false false true "week" .LEFT ⟨5, []⟩ rfl

/-- C3: `allDayEvents` and `daytimeEvents` partition the input: each list is
an order-preserving sublist of the input, membership in each is membership in
the input with the `isAllDayEvent` test respectively passing or failing, and
together they account for every input event (with multiplicity). -/
theorem events_partition (events : List CalEvent) :
    (allDayEvents events).Sublist events ∧
    (daytimeEvents events).Sublist events ∧
    (∀ e, e ∈ allDayEvents events ↔
      e ∈ events ∧ isAllDayEvent e.start e.endDate = true) ∧
    (∀ e, e ∈ daytimeEvents events ↔
      e ∈ events ∧ isAllDayEvent e.start e.endDate = false) ∧
    (allDayEvents events ++ daytimeEvents events).Perm events ∧
    (∀ e, (allDayEvents events).count e + (daytimeEvents events).count e =
      events.count e) := by
  have hperm : (allDayEvents events ++ daytimeEvents events).Perm events :=
    List.filter_append_perm _ events
  refine ⟨List.filter_sublist _, List.filter_sublist _, ?_, ?_, hperm, ?_⟩
  · intro e; simp [allDayEvents, List.mem_filter]
  · intro e; simp [daytimeEvents, List.mem_filter]
  · intro e
    have h := hperm.count_eq e
    simpa [List.count_append] using h

/-- C4 counterexample: in month mode the body's event list is NOT restricted
to timed events: with the single all-day event (midnight to midnight of the
next day), the list handed to `CalendarBodyForMonthView` contains that
all-day event. -/
theorem month_body_contains_allday :
    (⟨⟨0, 0⟩, ⟨1, 0⟩, "a"⟩ : CalEvent) ∈
      bodyEvents "month" [⟨⟨0, 0⟩, ⟨1, 0⟩, "a"⟩] ∧
    isAllDayEvent (⟨0, 0⟩ : Dt) ⟨1, 0⟩ = true := by
  decide

/-- C4 (amended): in every non-month mode the body receives exactly the timed
events (so no all-day event reaches it) and the header receives the all-day
events for its all-day cell; in month mode the body receives the
concatenation of timed and all-day events and the month header carries no
event list. -/
theorem body_events_by_mode (mode : String) (events : List CalEvent) :
    (mode ≠ "month" →
      bodyEvents mode events = daytimeEvents events ∧
      (∀ e ∈ bodyEvents mode events, isAllDayEvent e.start e.endDate = false) ∧
      headerAllDayEvents mode events = some (allDayEvents events)) ∧
    (mode = "month" →
      bodyEvents mode events = daytimeEvents events ++ allDayEvents events ∧
      headerAllDayEvents mode events = none) := by
  constructor
  · intro h
    have hb : (mode == "month") = false := by simpa using h
    refine ⟨by simp [bodyEvents, hb], ?_, by simp [headerAllDayEvents, hb]⟩
    intro e he
    simp only [bodyEvents, hb, if_neg Bool.false_ne_true, daytimeEvents,
      List.mem_filter] at he
    simpa using he.2
  · intro h
    subst h
    exact ⟨by simp [bodyEvents], by simp [headerAllDayEvents]⟩

/-- Witness for C4 (amended) at a concrete input: in week mode with one
all-day event, the body list equals the (empty) timed list and the header
gets the all-day event. -/
theorem body_events_by_mode_witness :
    bodyEvents "week" [⟨⟨0, 0⟩, ⟨1, 0⟩, "b"⟩] =
      daytimeEvents [⟨⟨0, 0⟩, ⟨1, 0⟩, "b"⟩] ∧
    (∀ e ∈ bodyEvents "week" [⟨⟨0, 0⟩, ⟨1, 0⟩, "b"⟩],
      isAllDayEvent e.start e.endDate = false) ∧
    headerAllDayEvents "week" [⟨⟨0, 0⟩, ⟨1, 0⟩, "b"⟩] =
      some (allDayEvents [⟨⟨0, 0⟩, ⟨1, 0⟩, "b"⟩]) :=
  (body_events_by_mode "week" [⟨⟨0, 0⟩, ⟨1, 0⟩, "b"⟩]).1 (by decide)

/-- C7: an all-day event appears in a day's all-day cell iff the cell is shown
(`showAllDayEventCell`), the event is among the header's all-day events, and
the day lies between the event's start and end inclusive at day granularity
(in either order, per the dayjs `isBetween` plugin). -/
theorem allday_cell_membership (showCell : Bool) (date : Dt)
    (evs : List CalEvent) (e : CalEvent) :
    e ∈ renderedAllDayCell showCell date evs ↔
      showCell = true ∧ e ∈ evs ∧
        ((e.start.day ≤ date.day ∧ date.day ≤ e.endDate.day) ∨
          (e.endDate.day ≤ date.day ∧ date.day ≤ e.start.day)) := by
  cases showCell <;>
    simp [renderedAllDayCell, List.mem_filter, isBetweenDayIncl, and_assoc]

/-- C8: pressing a header date cell whose index holds date `d` invokes the
provided `onPressDateHeader` callback with exactly `d`; with no callback the
press produces nothing and the cell is disabled (and enabled when a callback
is provided). -/
theorem press_date_header_behavior {α : Type} (cb : Dt → α)
    (dateRange : List Dt) (i : Nat) (d : Dt)
    (hd : dateRange[i]? = some d) :
    pressHeaderCell (some cb) dateRange i = some (cb d) ∧
    pressHeaderCell (none : Option (Dt → α)) dateRange i = none ∧
    dateHeaderDisabled (some cb) = false ∧
    dateHeaderDisabled (none : Option (Dt → α)) = true := by
  refine ⟨?_, ?_, rfl, rfl⟩
  · simp [pressHeaderCell, hd, onPressHeader]
  · cases h : dateRange[i]? <;> simp [pressHeaderCell, h, onPressHeader]

/-- Witness for C8 at a concrete input: with the identity callback and the
one-day range `[day 7]`, pressing cell 0 yields day 7 and the cell is
enabled; with no callback nothing is invoked and the cell is disabled. -/
theorem press_date_header_behavior_witness :
    pressHeaderCell (some (fun d => d)) [(⟨7, 0⟩ : Dt)] 0 = some ⟨7, 0⟩ ∧
    pressHeaderCell (none : Option (Dt → Dt)) [(⟨7, 0⟩ : Dt)] 0 = none ∧
    dateHeaderDisabled (some (fun d : Dt => d)) = false ∧
    dateHeaderDisabled (none : Option (Dt → Dt)) = true :=
  press_date_header_behavior (fun d => d) [⟨7, 0⟩] 0 ⟨7, 0⟩ rfl

/-- C2: the date-range computation succeeds exactly for the five supported
modes (day, 3days, week, month, custom) and throws for every other mode
string. -/
theorem dateRange_ok_iff_supported (mode : String) (t ws we : Int) :
    isOkB (dateRange mode t ws we) =
      (["day", "3days", "week", "month", "custom"].contains mode) := by
  by_cases h1 : mode = "month" <;> by_cases h2 : mode = "week" <;>
    by_cases h3 : mode = "3days" <;> by_cases h4 : mode = "day" <;>
    by_cases h5 : mode = "custom" <;>
    simp_all [dateRange, isOkB]

/-- Every month has at least one day (28 at minimum). -/
theorem daysInMonth_pos (y m : Int) : 0 < daysInMonth y m := by
  unfold daysInMonth
  split
  · split <;> omega
  · split <;> omega

/-- A non-empty range has a first and a last date, and the `onChangeDate`
payload is exactly that pair. -/
theorem payload_of_ne_nil (r : List Int) (h : r ≠ []) :
    ∃ a b, r.head? = some a ∧ r.getLast? = some b ∧
      onChangeDatePayload r = some (a, b) := by
  rcases r with _ | ⟨x, xs⟩
  · exact absurd rfl h
  · obtain ⟨b, hb⟩ := Option.isSome_iff_exists.mp
      (List.getLast?_isSome.mpr (by simp : (x :: xs) ≠ []))
    exact ⟨x, b, rfl, hb, by simp [onChangeDatePayload, hb]⟩

/-- C10: for every supported mode (with a well-formed week span,
`weekStartsOn ≤ weekEndsOn`, as with the defaults 0 and 6), the computed
range is non-empty, and the `onChangeDate` effect invokes a provided callback
with exactly the pair (first date of the range, last date of the range), and
invokes nothing when no callback is provided. -/
theorem onChangeDate_called_with_bounds (mode : String) (t ws we : Int)
    (hmode : mode ∈ (["day", "3days", "week", "month", "custom"] : List String))
    (hwk : ws ≤ we) :
    ∃ r a b, dateRange mode t ws we = .ok r ∧ r ≠ [] ∧
      r.head? = some a ∧ r.getLast? = some b ∧
      onChangeDateEffect true r = some (a, b) ∧
      onChangeDateEffect false r = none := by
  have key : ∃ r, dateRange mode t ws we = .ok r ∧ r ≠ [] := by
    have hm : mode = "day" ∨ mode = "3days" ∨ mode = "week" ∨
        mode = "month" ∨ mode = "custom" := by simpa using hmode
    rcases hm with h | h | h | h | h
    · exact ⟨getDatesInNextOneDay t, by simp [dateRange, h],
        by simp [getDatesInNextOneDay]⟩
    · exact ⟨getDatesInNextThreeDays t, by simp [dateRange, h],
        by simp [getDatesInNextThreeDays]⟩
    · exact ⟨getDatesInWeek t ws, by simp [dateRange, h],
        by simp [getDatesInWeek]; exact ⟨0, by omega⟩⟩
    · refine ⟨getDatesInMonth t, by simp [dateRange, h], ?_⟩
      have hpos : daysInMonth (civilFromDays t).1 (civilFromDays t).2.1 ≠ 0 :=
        Nat.pos_iff_ne_zero.mp (daysInMonth_pos _ _)
      simp [getDatesInMonth, List.range_eq_nil, hpos]
      exact ⟨0, Nat.pos_of_ne_zero hpos⟩
    · refine ⟨getDatesInNextCustomDays t ws we,
        by simp [dateRange, h], ?_⟩
      have hpos : (we + 1 - ws).toNat ≠ 0 := by omega
      simp [getDatesInNextCustomDays, List.range_eq_nil, hpos]
      exact ⟨0, by omega⟩
  obtain ⟨r, hr, hne⟩ := key
  obtain ⟨a, b, ha, hb, hp⟩ := payload_of_ne_nil r hne
  exact ⟨r, a, b, hr, hne, ha, hb, by simp [onChangeDateEffect, hp], rfl⟩

/-- Witness for C10 at a concrete input: day mode at epoch day 0 with the
default week span (0, 6). -/
theorem onChangeDate_called_with_bounds_witness :
    ∃ r a b, dateRange "day" 0 0 6 = .ok r ∧ r ≠ [] ∧
      r.head? = some a ∧ r.getLast? = some b ∧
      onChangeDateEffect true r = some (a, b) ∧
      onChangeDateEffect false r = none :=
  onChangeDate_called_with_bounds "day" 0 0 6 (by decide) (by decide)

end BigCalendar
